import Mathlib

/-!
Verification development for the field-descriptor compiler of
`prost-derive/src/field/mod.rs`: the attribute data model, the
shape-validating attribute parsers, the set-once guards, label parsing,
and the field-kind dispatch of `Field::new` / `Field::new_oneof`.

Machine integers (`u32`) are modelled as `Nat` with explicit `< 2 ^ 32`
range checks where the Rust code can fail on overflow. Fallible Rust
functions returning `Result<_, Error>` are modelled as `Except String _`,
with the error messages the Rust code constructs.
-/

namespace Prost

/-- Literal values, mirroring the `syn::Lit` shapes the code inspects:
string, integer and boolean literals, plus a catch-all for every other
literal kind (char, byte string, float, ...). Integer literals carry
their base-10 digits as a `Nat`. -/
inductive Lit where
  | str (s : String)
  | int (n : Nat)
  | bool (b : Bool)
  | other
deriving DecidableEq, Repr

mutual

/-- Attribute entries, mirroring `syn::Meta`: a bare path marker
(`foo`), a list (`foo(..)`), or a name-value pair (`foo = lit`). -/
inductive Meta where
  | path (name : String)
  | list (name : String) (items : List NestedMeta)
  | nameValue (name : String) (lit : Lit)

/-- Items of a meta list, mirroring `syn::NestedMeta`: either a nested
meta entry or a bare literal. -/
inductive NestedMeta where
  | meta (m : Meta)
  | lit (l : Lit)

end

/-- Name of an attribute entry, mirroring `Meta::path()` followed by
`is_ident` comparison (all paths in scope are single identifiers). -/
def Meta.name : Meta → String
  | .path n => n
  | .list n _ => n
  | .nameValue n _ => n

/-- Debug rendering of a literal, standing in for Rust's `{:?}`. -/
def litRepr : Lit → String
  | .str s => "Str(" ++ s ++ ")"
  | .int n => "Int(" ++ toString n ++ ")"
  | .bool b => "Bool(" ++ toString b ++ ")"
  | .other => "OtherLit"

mutual

/-- Debug rendering of a meta entry, standing in for Rust's `{:?}`. -/
def metaRepr : Meta → String
  | .path n => "Path(" ++ n ++ ")"
  | .list n items => "List(" ++ n ++ ", [" ++ nestedListRepr items ++ "])"
  | .nameValue n l => "NameValue(" ++ n ++ ", " ++ litRepr l ++ ")"

/-- Debug rendering of a list of nested meta items. -/
def nestedListRepr : List NestedMeta → String
  | [] => ""
  | [x] => nestedRepr x
  | x :: y :: xs => nestedRepr x ++ ", " ++ nestedListRepr (y :: xs)

/-- Debug rendering of a nested meta item. -/
def nestedRepr : NestedMeta → String
  | .meta m => metaRepr m
  | .lit l => litRepr l

end

/-- Debug rendering of a `Vec<Meta>`, standing in for Rust's `{:?}`. -/
def metaListRepr (l : List Meta) : String :=
  "[" ++ String.intercalate ", " (l.map metaRepr) ++ "]"

/-- Checks if an attribute matches a word, mirroring `word_attr`:
true exactly when the entry is `Meta::Path` whose ident equals `key`. -/
def word_attr (key : String) (attr : Meta) : Bool :=
  match attr with
  | .path name => name == key
  | _ => false

/-- Rust's `str::parse::<bool>` (`bool::from_str`): only the exact
strings "true" and "false" parse; anything else is an error. -/
def parseBoolStr (s : String) : Except String Bool :=
  if s = "true" then .ok true
  else if s = "false" then .ok false
  else .error "provided string was not a boolean"

/-- Rust's `char::is_whitespace`-based trimming of a character list,
mirroring `str::trim`. -/
def trimChars (l : List Char) : List Char :=
  ((l.dropWhile Char.isWhitespace).reverse.dropWhile Char.isWhitespace).reverse

/-- Rust's `str::split(',')` on a character list: splits at every comma,
keeping empty pieces, and yields one piece for the empty input. -/
def splitOnComma (l : List Char) : List (List Char) :=
  match l with
  | [] => [[]]
  | x :: xs =>
    let r := splitOnComma xs
    if x = ',' then [] :: r
    else
      match r with
      | [] => [[x]]
      | h :: t => (x :: h) :: t

/-- Rust's `str::parse::<u32>`: an optional leading `+` followed by at
least one decimal digit, the value fitting in 32 bits; otherwise the
corresponding parse error. -/
def parseU32Chars (l : List Char) : Except String Nat :=
  let l2 := match l with
    | '+' :: rest => rest
    | _ => l
  if l2 ≠ [] ∧ l2.all Char.isDigit then
    let n := l2.foldl (fun acc c => acc * 10 + (c.toNat - '0'.toNat)) 0
    if n < 2 ^ 32 then .ok n
    else .error "number too large to fit in target type"
  else .error "invalid digit found in string"

/-- Rust's `str::parse::<u32>` on a `String`. -/
def parseU32 (s : String) : Except String Nat :=
  parseU32Chars s.toList

/-- Rust's `LitInt::base10_parse::<u32>`: the literal's digits already
form a `Nat`; parsing fails only when the value does not fit in 32
bits. -/
def base10Parse (n : Nat) : Except String Nat :=
  if n < 2 ^ 32 then .ok n
  else .error "number too large to fit in target type"

/-- Embedding of `bool_attr`: unpacks an attribute into a
(key, boolean) pair. Returns no match when the entry's name is not
`key`; a bare marker means `true`; a list must hold exactly one boolean
literal; a name-value accepts a string (parsed as a boolean) or a
boolean literal; every other shape is an error. -/
def bool_attr (key : String) (attr : Meta) : Except String (Option Bool) :=
  if attr.name ≠ key then .ok none
  else
    match attr with
    | .path _ => .ok (some true)
    | .list _ items =>
      match items with
      | [NestedMeta.lit (Lit.bool b)] => .ok (some b)
      | _ => .error ("invalid " ++ key ++ " attribute")
    | .nameValue _ (Lit.str s) => (parseBoolStr s).map some
    | .nameValue _ (Lit.bool b) => .ok (some b)
    | .nameValue _ _ => .error ("invalid " ++ key ++ " attribute")

/-- Embedding of `tag_attr`: no match when the name is not "tag"; a
list must hold exactly one integer literal; a name-value accepts a
string (parsed as `u32`) or an integer literal; every other shape is an
error. -/
def tag_attr (attr : Meta) : Except String (Option Nat) :=
  if attr.name ≠ "tag" then .ok none
  else
    match attr with
    | .list _ items =>
      match items with
      | [NestedMeta.lit (Lit.int n)] => (base10Parse n).map some
      | _ => .error ("invalid tag attribute: " ++ metaRepr attr)
    | .nameValue _ (Lit.str s) => (parseU32 s).map some
    | .nameValue _ (Lit.int n) => (base10Parse n).map some
    | .nameValue _ _ => .error ("invalid tag attribute: " ++ metaRepr attr)
    | .path _ => .error ("invalid tag attribute: " ++ metaRepr attr)

/-- Collects the integer literals of a "tags" list in encounter order,
failing on the first item that is not an integer literal; the enclosing
attribute is rendered in the error, as in the source. -/
def collectTagInts (attr : Meta) : List NestedMeta → Except String (List Nat)
  | [] => .ok []
  | NestedMeta.lit (Lit.int n) :: rest => do
    let t ← base10Parse n
    let ts ← collectTagInts attr rest
    return t :: ts
  | _ :: _ => .error ("invalid tag attribute: " ++ metaRepr attr)

/-- Embedding of `tags_attr`: no match when the name is not "tags"; a
list collects every integer literal in encounter order and errors on
any other item; a name-value string is split on commas, each token
trimmed and parsed as `u32`, the first failure aborting; every other
shape is an error. -/
def tags_attr (attr : Meta) : Except String (Option (List Nat)) :=
  if attr.name ≠ "tags" then .ok none
  else
    match attr with
    | .list _ items => (collectTagInts attr items).map some
    | .nameValue _ (Lit.str s) =>
      ((splitOnComma s.toList).mapM
        (fun tok => parseU32Chars (trimChars tok))).map some
    | _ => .error ("invalid tag attribute: " ++ metaRepr attr)

/-- Embedding of `set_option`: the Rust function mutates the slot and
returns `Result<(), Error>`; here the resulting slot is returned next to
the outcome. An occupied slot fails with a message embedding both the
existing and the new value; an empty slot is filled. -/
def setOption {T : Type} [Repr T] (option : Option T) (value : T)
    (message : String) : Except String Unit × Option T :=
  match option with
  | some existing =>
    (.error (message ++ ": " ++ reprStr existing ++ " and " ++ reprStr value),
      some existing)
  | none => (.ok (), some value)

/-- Embedding of `set_bool`: the Rust function mutates the flag and
returns `Result<(), Error>`; here the resulting flag is returned next to
the outcome. A set flag fails with the supplied message; an unset flag
is set. -/
def set_bool (b : Bool) (message : String) : Except String Unit × Bool :=
  if b then (.error message, b) else (.ok (), true)

/-- Field multiplicity labels, mirroring `Label`. -/
inductive Label where
  | optional
  | required
  | repeated
deriving DecidableEq, Repr

/-- Canonical name of a label, mirroring `Label::as_str`. -/
def Label.as_str : Label → String
  | .optional => "optional"
  | .required => "required"
  | .repeated => "repeated"

/-- Order in which labels are tried, mirroring `Label::variants`. -/
def Label.variants : List Label :=
  [Label.optional, Label.required, Label.repeated]

/-- Embedding of `Label::from_attr`: parses an attribute into a field
label, matching only a bare path marker against the canonical names in
the fixed variant order; any other shape yields no match. -/
def Label.from_attr (attr : Meta) : Option Label :=
  match attr with
  | .path name => Label.variants.find? (fun l => name == l.as_str)
  | _ => none

/-- Display rendering of a label, mirroring the `fmt::Display`
implementation, which writes `as_str`. -/
def Label.displayStr (l : Label) : String := l.as_str

/-- Debug rendering of a label, mirroring the `fmt::Debug`
implementation, which writes `as_str`. -/
def Label.debugStr (l : Label) : String := l.as_str

/-- Scalar kind data as seen by `field/mod.rs`: the module defining it
is outside the file under study, which reads only its `tag` field. -/
structure ScalarField where
  tag : Nat
deriving DecidableEq, Repr

/-- Message kind data as seen by `field/mod.rs`: only its `tag` field
is read. -/
structure MessageField where
  tag : Nat
deriving DecidableEq, Repr

/-- Map kind data as seen by `field/mod.rs`: only its `tag` field is
read. -/
structure MapField where
  tag : Nat
deriving DecidableEq, Repr

/-- Oneof kind data as seen by `field/mod.rs`: only its `tags` list is
read. -/
structure OneofField where
  tags : List Nat
deriving DecidableEq, Repr

/-- Group kind data as seen by `field/mod.rs`: only its `tag` field is
read. -/
structure GroupField where
  tag : Nat
deriving DecidableEq, Repr

/-- The dispatch union `Field`: exactly one matched kind, or the
`Ignore` marker. -/
inductive Field where
  | scalar (f : ScalarField)
  | message (f : MessageField)
  | map (f : MapField)
  | oneof (f : OneofField)
  | group (f : GroupField)
  | ignore
deriving DecidableEq, Repr

/-- Embedding of `Field::tags`: a singleton for Scalar, Message, Map
and Group, the declared list for Oneof, and nothing for Ignore. -/
def Field.tags : Field → List Nat
  | .scalar s => [s.tag]
  | .message m => [m.tag]
  | .map m => [m.tag]
  | .oneof o => o.tags
  | .group g => [g.tag]
  | .ignore => []

/-- Modelled from the spec: the five kind modules (`scalar.rs`,
`message.rs`, `map.rs`, `oneof.rs`, `group.rs`) are not among the
sources under study; this bundle abstracts their classification entry
points as used by `Field::new` and `Field::new_oneof`. Each classifier
returns no match (`.ok none`) when the group lacks its kind's defining
marker, a descriptor when it matches, or an error. The member type and
the opaque `Options` value, which `Field::new` threads through
unchanged, are treated as already captured by the classifier
functions. -/
structure Classifiers where
  scalar : List Meta → Option Nat → Except String (Option ScalarField)
  message : List Meta → Option Nat → Except String (Option MessageField)
  map : List Meta → Option Nat → Except String (Option MapField)
  oneof : List Meta → Except String (Option OneofField)
  group : List Meta → Option Nat → Except String (Option GroupField)
  scalarOneof : List Meta → Except String (Option ScalarField)
  messageOneof : List Meta → Except String (Option MessageField)
  mapOneof : List Meta → Except String (Option MapField)
  groupOneof : List Meta → Except String (Option GroupField)

/-- Kind classification chain of `Field::new` (lines 64-80): try
Scalar, Message, Map, Oneof, Group in that order; the first match
determines the variant; if none matches, fail with "no type
attribute". -/
def classifyField (c : Classifiers) (attrs : List Meta)
    (inferred_tag : Option Nat) : Except String Field := do
  match ← c.scalar attrs inferred_tag with
  | some f => return Field.scalar f
  | none =>
  match ← c.message attrs inferred_tag with
  | some f => return Field.message f
  | none =>
  match ← c.map attrs inferred_tag with
  | some f => return Field.map f
  | none =>
  match ← c.oneof attrs with
  | some f => return Field.oneof f
  | none =>
  match ← c.group attrs inferred_tag with
  | some f => return Field.group f
  | none => throw "no type attribute"

/-- Cursor update of `Field::new` (line 82): one past the maximum
claimed tag, or the old cursor when the descriptor claims no tags. -/
def nextInferredTag (field : Field) (inferred_tag : Option Nat) :
    Option Nat :=
  ((field.tags.max?).map (· + 1)).or inferred_tag

/-- Conflict error of `Field::new` (lines 52-56), raised when a group
follows an ignore group. -/
def ignoreConflictMsg (attrs : List Meta) : String :=
  "ignore attribute used but other attributes were found: " ++ metaListRepr attrs

/-- Loop body of `Field::new` (lines 49-85) over the member's
annotation groups, carrying the `ignore` flag: each group is first
unwrapped (propagating its parse error), then checked against the
ignore flag; a group containing the bare "ignore" marker contributes
the Ignore descriptor and sets the flag; otherwise the group is
classified and the inferred-tag cursor advanced. -/
def fieldNewLoop (c : Classifiers)
    (groups : List (Except String (List Meta)))
    (inferred_tag : Option Nat) (ignore : Bool) :
    Except String (List Field) := do
  match groups with
  | [] => return []
  | attrsE :: rest =>
    let attrs ← attrsE
    if ignore then throw (ignoreConflictMsg attrs)
    else if attrs.any (fun attr => word_attr "ignore" attr) then
      let fs ← fieldNewLoop c rest inferred_tag true
      return Field.ignore :: fs
    else
      let field ← classifyField c attrs inferred_tag
      let fs ← fieldNewLoop c rest (nextInferredTag field inferred_tag) ignore
      return field :: fs

/-- Embedding of `Field::new`: processes the member's annotation
groups in encounter order, starting with the ignore flag unset. -/
def Field.new (c : Classifiers)
    (groups : List (Except String (List Meta)))
    (inferred_tag : Option Nat) : Except String (List Field) :=
  fieldNewLoop c groups inferred_tag false

/-- Embedding of `Field::new_oneof` (lines 94-112): classification
restricted to Scalar, Message, Map, Group in that order; if none
matches, fail with "no type attribute for oneof field". -/
def Field.new_oneof (c : Classifiers) (attrs : List Meta) :
    Except String (Option Field) := do
  match ← c.scalarOneof attrs with
  | some f => return some (Field.scalar f)
  | none =>
  match ← c.messageOneof attrs with
  | some f => return some (Field.message f)
  | none =>
  match ← c.mapOneof attrs with
  | some f => return some (Field.map f)
  | none =>
  match ← c.groupOneof attrs with
  | some f => return some (Field.group f)
  | none => throw "no type attribute for oneof field"

/-- Modelled from the spec: a concrete stand-in bundle for the absent
kind modules, used to instantiate the classifier-parameterized
theorems. Per the spec each kind classifier recognizes only its own
exclusive marker — here "int32" for Scalar (one representative scalar
type name), "message" for Message, "map" for Map, "oneof" for Oneof
and "group" for Group — and otherwise reports no match; a matching
kind claims the inferred cursor as its tag (the Oneof stand-in claims
the singleton of the cursor), failing when no cursor is available. -/
def demoClassifiers : Classifiers where
  scalar := fun attrs t =>
    if attrs.any (word_attr "int32") then
      match t with
      | some n => .ok (some ⟨n⟩)
      | none => .error "missing tag attribute"
    else .ok none
  message := fun attrs t =>
    if attrs.any (word_attr "message") then
      match t with
      | some n => .ok (some ⟨n⟩)
      | none => .error "missing tag attribute"
    else .ok none
  map := fun attrs t =>
    if attrs.any (word_attr "map") then
      match t with
      | some n => .ok (some ⟨n⟩)
      | none => .error "missing tag attribute"
    else .ok none
  oneof := fun attrs =>
    if attrs.any (word_attr "oneof") then .ok (some ⟨[1]⟩) else .ok none
  group := fun attrs t =>
    if attrs.any (word_attr "group") then
      match t with
      | some n => .ok (some ⟨n⟩)
      | none => .error "missing tag attribute"
    else .ok none
  scalarOneof := fun attrs =>
    if attrs.any (word_attr "int32") then .ok (some ⟨0⟩) else .ok none
  messageOneof := fun attrs =>
    if attrs.any (word_attr "message") then .ok (some ⟨0⟩) else .ok none
  mapOneof := fun attrs =>
    if attrs.any (word_attr "map") then .ok (some ⟨0⟩) else .ok none
  groupOneof := fun attrs =>
    if attrs.any (word_attr "group") then .ok (some ⟨0⟩) else .ok none

/-! Helper lemmas about the `Except` monad and the dispatch chain. -/

theorem exceptBind_ok {ε α β : Type} (a : α) (k : α → Except ε β) :
    (Except.ok a : Except ε α) >>= k = k a := rfl

theorem exceptBind_error {ε α β : Type} (e : ε) (k : α → Except ε β) :
    (Except.error e : Except ε α) >>= k = Except.error e := rfl

theorem exceptPure {ε α : Type} (a : α) :
    (pure a : Except ε α) = Except.ok a := rfl

theorem exceptMap_ok {ε α β : Type} (f : α → β) (a : α) :
    Except.map f (Except.ok a : Except ε α) = Except.ok (f a) := rfl

theorem exceptMap_error {ε α β : Type} (f : α → β) (e : ε) :
    Except.map f (Except.error e : Except ε α) = Except.error e := rfl

theorem classifyField_scalar (c : Classifiers) (attrs : List Meta)
    (t : Option Nat) (f : ScalarField)
    (h : c.scalar attrs t = .ok (some f)) :
    classifyField c attrs t = .ok (Field.scalar f) := by
  simp [classifyField, h, exceptBind_ok, exceptPure]

theorem classifyField_message (c : Classifiers) (attrs : List Meta)
    (t : Option Nat) (f : MessageField)
    (h1 : c.scalar attrs t = .ok none)
    (h2 : c.message attrs t = .ok (some f)) :
    classifyField c attrs t = .ok (Field.message f) := by
  simp [classifyField, h1, h2, exceptBind_ok, exceptPure]

theorem classifyField_map (c : Classifiers) (attrs : List Meta)
    (t : Option Nat) (f : MapField)
    (h1 : c.scalar attrs t = .ok none)
    (h2 : c.message attrs t = .ok none)
    (h3 : c.map attrs t = .ok (some f)) :
    classifyField c attrs t = .ok (Field.map f) := by
  simp [classifyField, h1, h2, h3, exceptBind_ok, exceptPure]

theorem classifyField_oneof (c : Classifiers) (attrs : List Meta)
    (t : Option Nat) (f : OneofField)
    (h1 : c.scalar attrs t = .ok none)
    (h2 : c.message attrs t = .ok none)
    (h3 : c.map attrs t = .ok none)
    (h4 : c.oneof attrs = .ok (some f)) :
    classifyField c attrs t = .ok (Field.oneof f) := by
  simp [classifyField, h1, h2, h3, h4, exceptBind_ok, exceptPure]

theorem classifyField_group (c : Classifiers) (attrs : List Meta)
    (t : Option Nat) (f : GroupField)
    (h1 : c.scalar attrs t = .ok none)
    (h2 : c.message attrs t = .ok none)
    (h3 : c.map attrs t = .ok none)
    (h4 : c.oneof attrs = .ok none)
    (h5 : c.group attrs t = .ok (some f)) :
    classifyField c attrs t = .ok (Field.group f) := by
  simp [classifyField, h1, h2, h3, h4, h5, exceptBind_ok, exceptPure]

theorem classifyField_none (c : Classifiers) (attrs : List Meta)
    (t : Option Nat)
    (h1 : c.scalar attrs t = .ok none)
    (h2 : c.message attrs t = .ok none)
    (h3 : c.map attrs t = .ok none)
    (h4 : c.oneof attrs = .ok none)
    (h5 : c.group attrs t = .ok none) :
    classifyField c attrs t = .error "no type attribute" := by
  simp [classifyField, h1, h2, h3, h4, h5, exceptBind_ok, exceptPure]
  rfl

theorem fieldNewLoop_nil (c : Classifiers) (t : Option Nat) (ign : Bool) :
    fieldNewLoop c [] t ign = .ok [] := rfl

theorem fieldNewLoop_err (c : Classifiers) (e : String)
    (rest : List (Except String (List Meta))) (t : Option Nat)
    (ign : Bool) :
    fieldNewLoop c (.error e :: rest) t ign = .error e := rfl

theorem fieldNewLoop_conflict (c : Classifiers) (g : List Meta)
    (rest : List (Except String (List Meta))) (t : Option Nat) :
    fieldNewLoop c (.ok g :: rest) t true = .error (ignoreConflictMsg g) := rfl

theorem fieldNewLoop_ignore (c : Classifiers) (g : List Meta)
    (rest : List (Except String (List Meta))) (t : Option Nat)
    (h : g.any (fun attr => word_attr "ignore" attr) = true) :
    fieldNewLoop c (.ok g :: rest) t false
      = (Field.ignore :: ·) <$> fieldNewLoop c rest t true := by
  simp only [fieldNewLoop, exceptBind_ok, exceptPure]
  rw [if_neg (by decide), if_pos h]
  cases fieldNewLoop c rest t true <;> rfl

theorem fieldNewLoop_classify (c : Classifiers) (g : List Meta)
    (rest : List (Except String (List Meta))) (t : Option Nat)
    (h : g.any (fun attr => word_attr "ignore" attr) = false) :
    fieldNewLoop c (.ok g :: rest) t false
      = (classifyField c g t) >>= (fun f =>
          (f :: ·) <$> fieldNewLoop c rest (nextInferredTag f t) false) := by
  simp only [fieldNewLoop, exceptBind_ok, exceptPure]
  rw [if_neg (by decide), if_neg (by simp [h])]
  cases classifyField c g t with
  | error e => rfl
  | ok f => cases fieldNewLoop c rest (nextInferredTag f t) false <;> rfl

theorem new_oneof_scalar (c : Classifiers) (attrs : List Meta)
    (f : ScalarField) (h : c.scalarOneof attrs = .ok (some f)) :
    Field.new_oneof c attrs = .ok (some (Field.scalar f)) := by
  simp [Field.new_oneof, h, exceptBind_ok, exceptPure]

theorem new_oneof_message (c : Classifiers) (attrs : List Meta)
    (f : MessageField)
    (h1 : c.scalarOneof attrs = .ok none)
    (h2 : c.messageOneof attrs = .ok (some f)) :
    Field.new_oneof c attrs = .ok (some (Field.message f)) := by
  simp [Field.new_oneof, h1, h2, exceptBind_ok, exceptPure]

theorem new_oneof_map (c : Classifiers) (attrs : List Meta)
    (f : MapField)
    (h1 : c.scalarOneof attrs = .ok none)
    (h2 : c.messageOneof attrs = .ok none)
    (h3 : c.mapOneof attrs = .ok (some f)) :
    Field.new_oneof c attrs = .ok (some (Field.map f)) := by
  simp [Field.new_oneof, h1, h2, h3, exceptBind_ok, exceptPure]

theorem new_oneof_group (c : Classifiers) (attrs : List Meta)
    (f : GroupField)
    (h1 : c.scalarOneof attrs = .ok none)
    (h2 : c.messageOneof attrs = .ok none)
    (h3 : c.mapOneof attrs = .ok none)
    (h4 : c.groupOneof attrs = .ok (some f)) :
    Field.new_oneof c attrs = .ok (some (Field.group f)) := by
  simp [Field.new_oneof, h1, h2, h3, h4, exceptBind_ok, exceptPure]

theorem new_oneof_none (c : Classifiers) (attrs : List Meta)
    (h1 : c.scalarOneof attrs = .ok none)
    (h2 : c.messageOneof attrs = .ok none)
    (h3 : c.mapOneof attrs = .ok none)
    (h4 : c.groupOneof attrs = .ok none) :
    Field.new_oneof c attrs = .error "no type attribute for oneof field" := by
  simp [Field.new_oneof, h1, h2, h3, h4, exceptBind_ok, exceptPure]
  rfl

/-- C5: for every key and attribute entry, `bool_attr` returns no match
(`Ok(None)`), never an error, when the entry's name is not the key;
when the name equals the key it returns true for the bare marker form,
the literal's value for a list containing exactly one boolean literal
and the error "invalid <key> attribute" for any other list, the parsed
boolean for a name-value with a string literal (propagating the
string's boolean-parse failure as an error), the value for a name-value
with a boolean literal, and an error for any other shape. -/
theorem bool_attr_shapes :
    (∀ (key : String) (attr : Meta), attr.name ≠ key →
      bool_attr key attr = .ok none) ∧
    (∀ key : String, bool_attr key (Meta.path key) = .ok (some true)) ∧
    (∀ (key : String) (b : Bool),
      bool_attr key (Meta.list key [NestedMeta.lit (Lit.bool b)])
        = .ok (some b)) ∧
    (∀ (key : String) (items : List NestedMeta),
      (∀ b : Bool, items ≠ [NestedMeta.lit (Lit.bool b)]) →
      bool_attr key (Meta.list key items)
        = .error ("invalid " ++ key ++ " attribute")) ∧
    (∀ (key s : String),
      bool_attr key (Meta.nameValue key (Lit.str s))
        = (parseBoolStr s).map some) ∧
    (∀ (key s e : String), parseBoolStr s = .error e →
      bool_attr key (Meta.nameValue key (Lit.str s)) = .error e) ∧
    (∀ (key : String) (b : Bool),
      bool_attr key (Meta.nameValue key (Lit.bool b)) = .ok (some b)) ∧
    (∀ (key : String) (n : Nat),
      bool_attr key (Meta.nameValue key (Lit.int n))
        = .error ("invalid " ++ key ++ " attribute")) ∧
    (∀ key : String,
      bool_attr key (Meta.nameValue key Lit.other)
        = .error ("invalid " ++ key ++ " attribute")) := by
  refine ⟨?_, ?_, ?_, ?_, ?_, ?_, ?_, ?_, ?_⟩
  · intro key attr h; simp [bool_attr, h]
  · intro key; simp [bool_attr, Meta.name]
  · intro key b; simp [bool_attr, Meta.name]
  · intro key items h
    rcases items with _ | ⟨x, tl⟩
    · simp [bool_attr, Meta.name]
    rcases tl with _ | ⟨y, tl⟩
    · rcases x with m | l
      · simp [bool_attr, Meta.name]
      · rcases l with s | n | b | _
        · simp [bool_attr, Meta.name]
        · simp [bool_attr, Meta.name]
        · exact absurd rfl (h b)
        · simp [bool_attr, Meta.name]
    · simp [bool_attr, Meta.name]
  · intro key s; simp [bool_attr, Meta.name]
  · intro key s e he; simp [bool_attr, Meta.name, he, exceptMap_error]
  · intro key b; simp [bool_attr, Meta.name]
  · intro key n; simp [bool_attr, Meta.name]
  · intro key; simp [bool_attr, Meta.name]

/-- Witness for C5: the hypotheses of `bool_attr_shapes` hold at
concrete inputs — a non-matching name, a singleton integer list, and a
non-boolean string. -/
theorem bool_attr_shapes_witness :
    bool_attr "boxed" (Meta.path "other") = .ok none ∧
    bool_attr "boxed" (Meta.list "boxed" [NestedMeta.lit (Lit.int 3)])
      = .error ("invalid " ++ "boxed" ++ " attribute") ∧
    bool_attr "boxed" (Meta.nameValue "boxed" (Lit.str "maybe"))
      = .error "provided string was not a boolean" :=
  ⟨bool_attr_shapes.1 "boxed" (Meta.path "other") (by decide),
   bool_attr_shapes.2.2.2.1 "boxed" [NestedMeta.lit (Lit.int 3)]
     (fun b => by simp),
   bool_attr_shapes.2.2.2.2.2.1 "boxed" "maybe"
     "provided string was not a boolean" rfl⟩

/-- C6: for every attribute entry, `tag_attr` returns no match
(`Ok(None)`), never an error, when the entry's name is not "tag"; when
the name is "tag" it returns the integer for a list containing exactly
one integer literal (so `List("tag", [Integer(7)])` matches 7) and an
error for any other list (so `List("tag", [Integer(7), Integer(8)])`
errors), the parsed unsigned integer for a name-value with a string
literal (propagating parse failure), the value for a name-value with an
integer literal, and an error for any other shape. -/
theorem tag_attr_shapes :
    (∀ attr : Meta, attr.name ≠ "tag" → tag_attr attr = .ok none) ∧
    (∀ n : Nat, n < 2 ^ 32 →
      tag_attr (Meta.list "tag" [NestedMeta.lit (Lit.int n)])
        = .ok (some n)) ∧
    (tag_attr (Meta.list "tag" [NestedMeta.lit (Lit.int 7)])
        = .ok (some 7)) ∧
    (∀ items : List NestedMeta,
      (∀ n : Nat, items ≠ [NestedMeta.lit (Lit.int n)]) →
      tag_attr (Meta.list "tag" items)
        = .error ("invalid tag attribute: "
            ++ metaRepr (Meta.list "tag" items))) ∧
    (tag_attr (Meta.list "tag"
        [NestedMeta.lit (Lit.int 7), NestedMeta.lit (Lit.int 8)])
      = .error ("invalid tag attribute: "
          ++ metaRepr (Meta.list "tag"
              [NestedMeta.lit (Lit.int 7), NestedMeta.lit (Lit.int 8)]))) ∧
    (∀ s : String,
      tag_attr (Meta.nameValue "tag" (Lit.str s)) = (parseU32 s).map some) ∧
    (∀ s e : String, parseU32 s = .error e →
      tag_attr (Meta.nameValue "tag" (Lit.str s)) = .error e) ∧
    (∀ n : Nat, n < 2 ^ 32 →
      tag_attr (Meta.nameValue "tag" (Lit.int n)) = .ok (some n)) ∧
    (∀ b : Bool,
      tag_attr (Meta.nameValue "tag" (Lit.bool b))
        = .error ("invalid tag attribute: "
            ++ metaRepr (Meta.nameValue "tag" (Lit.bool b)))) ∧
    (tag_attr (Meta.nameValue "tag" Lit.other)
        = .error ("invalid tag attribute: "
            ++ metaRepr (Meta.nameValue "tag" Lit.other))) ∧
    (tag_attr (Meta.path "tag")
        = .error ("invalid tag attribute: " ++ metaRepr (Meta.path "tag"))) := by
  refine ⟨?_, ?_, rfl, ?_, rfl, ?_, ?_, ?_, ?_, rfl, rfl⟩
  · intro attr h; simp [tag_attr, h]
  · intro n hn
    have hn' : n < 4294967296 := hn
    simp [tag_attr, Meta.name, base10Parse, hn', exceptMap_ok]
  · intro items h
    rcases items with _ | ⟨x, tl⟩
    · simp [tag_attr, Meta.name]
    rcases tl with _ | ⟨y, tl⟩
    · rcases x with m | l
      · simp [tag_attr, Meta.name]
      · rcases l with s | n | b | _
        · simp [tag_attr, Meta.name]
        · exact absurd rfl (h n)
        · simp [tag_attr, Meta.name]
        · simp [tag_attr, Meta.name]
    · simp [tag_attr, Meta.name]
  · intro s; simp [tag_attr, Meta.name]
  · intro s e he; simp [tag_attr, Meta.name, he, exceptMap_error]
  · intro n hn
    have hn' : n < 4294967296 := hn
    simp [tag_attr, Meta.name, base10Parse, hn', exceptMap_ok]
  · intro b; simp [tag_attr, Meta.name]

/-- Witness for C6: the hypotheses of `tag_attr_shapes` hold at
concrete inputs — tag 7 under the 32-bit bound, a two-element list, a
non-numeric string, and a non-matching name. -/
theorem tag_attr_shapes_witness :
    tag_attr (Meta.list "tag" [NestedMeta.lit (Lit.int 7)]) = .ok (some 7) ∧
    (tag_attr (Meta.list "tag"
        [NestedMeta.lit (Lit.int 7), NestedMeta.lit (Lit.int 8)])
      = .error ("invalid tag attribute: "
          ++ metaRepr (Meta.list "tag"
              [NestedMeta.lit (Lit.int 7), NestedMeta.lit (Lit.int 8)]))) ∧
    tag_attr (Meta.nameValue "tag" (Lit.str "x"))
      = .error "invalid digit found in string" ∧
    tag_attr (Meta.path "tags") = .ok none :=
  ⟨tag_attr_shapes.2.1 7 (by norm_num),
   tag_attr_shapes.2.2.2.1
     [NestedMeta.lit (Lit.int 7), NestedMeta.lit (Lit.int 8)]
     (fun n => by simp),
   tag_attr_shapes.2.2.2.2.2.2.1 "x" "invalid digit found in string" rfl,
   tag_attr_shapes.1 (Meta.path "tags") (by decide)⟩

/-- C8: the set-once guards enforce at-most-one assignment: `setOption`
on an empty slot succeeds and leaves the slot holding the value, and a
second call fails with an error whose message embeds both the existing
and the new value; `set_bool` on an unset flag succeeds, a second call
fails with the supplied message, and in either outcome the flag is true
after the call. -/
theorem set_once_guards :
    (∀ (T : Type) [Repr T] (a : T) (msg : String),
      setOption (none : Option T) a msg = (Except.ok (), some a)) ∧
    (∀ (T : Type) [Repr T] (a b : T) (msg : String),
      setOption (some a) b msg
        = (Except.error (msg ++ ": " ++ reprStr a ++ " and " ++ reprStr b),
            some a)) ∧
    (∀ msg : String, set_bool false msg = (Except.ok (), true)) ∧
    (∀ msg : String, set_bool true msg = (Except.error msg, true)) ∧
    (∀ (b : Bool) (msg : String), (set_bool b msg).2 = true) := by
  refine ⟨?_, ?_, fun msg => rfl, fun msg => rfl, ?_⟩
  · intro T inst a msg; rfl
  · intro T inst a b msg; rfl
  · intro b msg; cases b <;> rfl

/-- Witness for C8: the guards applied at concrete values 3 and 4. -/
theorem set_once_guards_witness :
    setOption (none : Option Nat) 3 "conflicting tags" = (Except.ok (), some 3) ∧
    setOption (some 3) 4 "conflicting tags"
      = (Except.error ("conflicting tags" ++ ": " ++ reprStr (3 : Nat)
          ++ " and " ++ reprStr (4 : Nat)), some 3) ∧
    set_bool true "flag already set" = (Except.error "flag already set", true) :=
  ⟨set_once_guards.1 Nat 3 "conflicting tags",
   set_once_guards.2.1 Nat 3 4 "conflicting tags",
   set_once_guards.2.2.2.1 "flag already set"⟩

/-- C9: `Label.from_attr` returns a label exactly when the entry is a
bare path marker whose name equals one of the canonical names
"optional", "required", "repeated" (tried in that fixed order); every
list or name-value entry yields none even when its name matches; and
each matched label round-trips, its display and debug strings being
exactly the canonical name that matched it. -/
theorem label_from_attr_round_trip :
    (∀ l : Label, Label.from_attr (Meta.path l.as_str) = some l) ∧
    (∀ (n : String) (l : Label),
      Label.from_attr (Meta.path n) = some l → l.as_str = n) ∧
    (∀ (n : String) (l : Label), Label.from_attr (Meta.path n) = some l →
      n = "optional" ∨ n = "required" ∨ n = "repeated") ∧
    (∀ (n : String) (items : List NestedMeta),
      Label.from_attr (Meta.list n items) = none) ∧
    (∀ (n : String) (l : Lit),
      Label.from_attr (Meta.nameValue n l) = none) ∧
    (∀ l : Label, Label.displayStr l = l.as_str ∧ Label.debugStr l = l.as_str) ∧
    Label.variants = [Label.optional, Label.required, Label.repeated] := by
  have key : ∀ (n : String) (l : Label),
      Label.from_attr (Meta.path n) = some l → l.as_str = n := by
    intro n l h
    simp only [Label.from_attr] at h
    have h2 := List.find?_some h
    exact (by simpa using h2 : n = l.as_str).symm
  refine ⟨?_, key, ?_, fun n items => rfl, fun n l => rfl,
    fun l => ⟨rfl, rfl⟩, rfl⟩
  · intro l; cases l <;> rfl
  · intro n l h
    have h2 := key n l h
    cases l
    · exact Or.inl h2.symm
    · exact Or.inr (Or.inl h2.symm)
    · exact Or.inr (Or.inr h2.symm)

/-- Witness for C9: the round-trip hypotheses hold at the concrete
entry `Marker("required")`. -/
theorem label_from_attr_round_trip_witness :
    Label.as_str Label.required = "required" ∧
    ("required" = "optional" ∨ "required" = "required"
      ∨ "required" = "repeated") :=
  ⟨label_from_attr_round_trip.2.1 "required" Label.required rfl,
   label_from_attr_round_trip.2.2.1 "required" Label.required rfl⟩

/-- Recognizes a nested item that is an integer literal. -/
def isIntItem : NestedMeta → Bool
  | NestedMeta.lit (Lit.int _) => true
  | _ => false

theorem collectTagInts_ints (attr : Meta) (ns : List Nat)
    (h : ∀ n ∈ ns, n < 2 ^ 32) :
    collectTagInts attr (ns.map (fun n => NestedMeta.lit (Lit.int n)))
      = .ok ns := by
  induction ns with
  | nil => rfl
  | cons n rest ih =>
    have hn : n < 4294967296 := h n (List.mem_cons_self n rest)
    have hrest := ih (fun m hm => h m (List.mem_cons_of_mem _ hm))
    simp [collectTagInts, base10Parse, hn, hrest, exceptBind_ok, exceptPure]

theorem collectTagInts_nonint (attr : Meta) (items : List NestedMeta)
    (hin : items.any (fun x => !(isIntItem x)) = true)
    (hrange : ∀ n : Nat, NestedMeta.lit (Lit.int n) ∈ items → n < 2 ^ 32) :
    collectTagInts attr items
      = .error ("invalid tag attribute: " ++ metaRepr attr) := by
  induction items with
  | nil => simp at hin
  | cons x rest ih =>
    cases x with
    | meta m => rfl
    | lit l =>
      cases l with
      | int n =>
        have hn : n < 4294967296 :=
          hrange n (List.mem_cons_self _ _)
        have hin' : rest.any (fun x => !(isIntItem x)) = true := by
          simpa [isIntItem] using hin
        have hrest := ih hin'
          (fun m hm => hrange m (List.mem_cons_of_mem _ hm))
        simp [collectTagInts, base10Parse, hn, hrest, exceptBind_ok,
          exceptBind_error]
      | str s => rfl
      | bool b => rfl
      | other => rfl

theorem mapM_tok_error (p : List Char → Except String Nat)
    (pre : List (List Char)) (tok : List Char)
    (rest : List (List Char)) (e : String)
    (hpre : ∀ t ∈ pre, ∃ v, p t = .ok v)
    (htok : p tok = .error e) :
    (pre ++ tok :: rest).mapM p = .error e := by
  induction pre with
  | nil => rw [List.nil_append, List.mapM_cons, htok]; rfl
  | cons a pre ih =>
    obtain ⟨v, hv⟩ := hpre a (List.mem_cons_self _ _)
    have ih' := ih (fun t ht => hpre t (List.mem_cons_of_mem _ ht))
    rw [List.cons_append, List.mapM_cons, hv]
    simp only [exceptBind_ok]
    rw [ih']
    rfl

/-- C7: for every attribute entry, `tags_attr` returns no match
(`Ok(None)`), never an error, when the entry's name is not "tags"; for
a list form it collects the value of every integer-literal item in
encounter order without deduplication and errors on any non-integer
item; for a name-value with a string literal it splits the string on
commas, trims each token, and parses each as an unsigned integer,
aborting with an error at the first failing token — so
`NameValue("tags", String("1, 2,3"))` matches `[1, 2, 3]` in that
order and the string "1,x" is an error. -/
theorem tags_attr_shapes :
    (∀ attr : Meta, attr.name ≠ "tags" → tags_attr attr = .ok none) ∧
    (∀ ns : List Nat, (∀ n ∈ ns, n < 2 ^ 32) →
      tags_attr (Meta.list "tags"
          (ns.map (fun n => NestedMeta.lit (Lit.int n))))
        = .ok (some ns)) ∧
    (∀ items : List NestedMeta,
      items.any (fun x => !(isIntItem x)) = true →
      (∀ n : Nat, NestedMeta.lit (Lit.int n) ∈ items → n < 2 ^ 32) →
      tags_attr (Meta.list "tags" items)
        = .error ("invalid tag attribute: "
            ++ metaRepr (Meta.list "tags" items))) ∧
    (∀ s : String,
      tags_attr (Meta.nameValue "tags" (Lit.str s))
        = ((splitOnComma s.toList).mapM
            (fun tok => parseU32Chars (trimChars tok))).map some) ∧
    (∀ (s : String) (pre : List (List Char)) (tok : List Char)
        (rest : List (List Char)) (e : String),
      splitOnComma s.toList = pre ++ tok :: rest →
      (∀ t ∈ pre, ∃ v, parseU32Chars (trimChars t) = .ok v) →
      parseU32Chars (trimChars tok) = .error e →
      tags_attr (Meta.nameValue "tags" (Lit.str s)) = .error e) ∧
    (tags_attr (Meta.nameValue "tags" (Lit.str "1, 2,3"))
        = .ok (some [1, 2, 3])) ∧
    (tags_attr (Meta.nameValue "tags" (Lit.str "1,x"))
        = .error "invalid digit found in string") := by
  have hnv : ∀ s : String,
      tags_attr (Meta.nameValue "tags" (Lit.str s))
        = ((splitOnComma s.toList).mapM
            (fun tok => parseU32Chars (trimChars tok))).map some := by
    intro s; simp [tags_attr, Meta.name]
  refine ⟨?_, ?_, ?_, hnv, ?_, rfl, rfl⟩
  · intro attr h; simp [tags_attr, h]
  · intro ns h
    simp [tags_attr, Meta.name, collectTagInts_ints _ _ h, exceptMap_ok]
  · intro items hin hrange
    simp [tags_attr, Meta.name,
      collectTagInts_nonint _ _ hin hrange, exceptMap_error]
  · intro s pre tok rest e hsplit hpre htok
    rw [hnv s, hsplit, mapM_tok_error _ _ _ _ _ hpre htok, exceptMap_error]

/-- Witness for C7: the hypotheses of `tags_attr_shapes` hold at
concrete inputs — a duplicate-carrying integer list, a list with a
non-integer item, and the string "7,red,9" whose second token fails. -/
theorem tags_attr_shapes_witness :
    tags_attr (Meta.list "tags"
        ([1, 2, 1].map (fun n => NestedMeta.lit (Lit.int n))))
      = .ok (some [1, 2, 1]) ∧
    (tags_attr (Meta.list "tags"
        [NestedMeta.lit (Lit.int 1), NestedMeta.meta (Meta.path "x")])
      = .error ("invalid tag attribute: "
          ++ metaRepr (Meta.list "tags"
              [NestedMeta.lit (Lit.int 1), NestedMeta.meta (Meta.path "x")]))) ∧
    tags_attr (Meta.nameValue "tags" (Lit.str "7,red,9"))
      = .error "invalid digit found in string" ∧
    tags_attr (Meta.path "tag") = .ok none :=
  ⟨tags_attr_shapes.2.1 [1, 2, 1] (by intro n hn; fin_cases hn <;> norm_num),
   tags_attr_shapes.2.2.1
     [NestedMeta.lit (Lit.int 1), NestedMeta.meta (Meta.path "x")]
     (by decide)
     (by intro n hn; simp at hn; subst hn; norm_num),
   tags_attr_shapes.2.2.2.2.1 "7,red,9"
     [['7']] ['r', 'e', 'd'] [['9']] "invalid digit found in string"
     (by decide)
     (by intro t ht; simp at ht; subst ht; exact ⟨7, rfl⟩)
     rfl,
   tags_attr_shapes.1 (Meta.path "tag") (by decide)⟩

/-- C1 is false as stated: a member whose second annotation group
carries the bare "ignore" marker still yields the non-Ignore Scalar
descriptor produced by its first group, with no conflict error — the
conflict check only guards groups that come after the ignore group, so
the member's result is not fixed to the Ignore descriptor and a
non-Ignore descriptor is produced. -/
theorem ignore_fixes_member_counterexample :
    Field.new demoClassifiers
        [.ok [Meta.path "int32"], .ok [Meta.path "ignore"]] (some 1)
      = .ok [Field.scalar ⟨1⟩, Field.ignore]
    ∧ Field.scalar ⟨1⟩ ≠ Field.ignore :=
  ⟨rfl, by decide⟩

/-- C1 amended: once a group containing the bare "ignore" marker is
encountered, that group yields the Ignore descriptor, and any
AnnotationGroup that follows it causes the conflict error, raised for
every choice of classifiers and hence before any kind classification
of that group is attempted; a member whose ignore group comes first
produces no non-Ignore descriptor, but groups preceding the ignore
group are classified normally. -/
theorem ignore_conflict_amended :
    (∀ (c : Classifiers) (g : List Meta)
        (rest : List (Except String (List Meta))) (t : Option Nat),
      g.any (fun a => word_attr "ignore" a) = true →
      fieldNewLoop c (.ok g :: rest) t false
        = (Field.ignore :: ·) <$> fieldNewLoop c rest t true) ∧
    (∀ (c : Classifiers) (g2 : List Meta)
        (rest : List (Except String (List Meta))) (t : Option Nat),
      fieldNewLoop c (.ok g2 :: rest) t true
        = .error (ignoreConflictMsg g2)) ∧
    (∀ (c : Classifiers) (g1 g2 : List Meta)
        (rest : List (Except String (List Meta))) (t : Option Nat),
      g1.any (fun a => word_attr "ignore" a) = true →
      Field.new c (.ok g1 :: .ok g2 :: rest) t
        = .error (ignoreConflictMsg g2)) ∧
    (∀ (c : Classifiers) (g1 : List Meta) (t : Option Nat),
      g1.any (fun a => word_attr "ignore" a) = true →
      Field.new c [.ok g1] t = .ok [Field.ignore]) := by
  refine ⟨fieldNewLoop_ignore, fieldNewLoop_conflict, ?_, ?_⟩
  · intro c g1 g2 rest t h
    show fieldNewLoop c (.ok g1 :: .ok g2 :: rest) t false = _
    rw [fieldNewLoop_ignore c g1 _ t h, fieldNewLoop_conflict]
    rfl
  · intro c g1 t h
    show fieldNewLoop c [.ok g1] t false = _
    rw [fieldNewLoop_ignore c g1 [] t h]
    rfl

/-- Witness for the amended C1: with the spec-modelled classifier
bundle, ignore-then-scalar groups raise the conflict error, and a lone
ignore group yields exactly the Ignore descriptor. -/
theorem ignore_conflict_amended_witness :
    Field.new demoClassifiers
        [.ok [Meta.path "ignore"], .ok [Meta.path "int32"]] (some 1)
      = .error (ignoreConflictMsg [Meta.path "int32"]) ∧
    Field.new demoClassifiers [.ok [Meta.path "ignore"]] (some 1)
      = .ok [Field.ignore] :=
  ⟨ignore_conflict_amended.2.2.1 demoClassifiers
      [Meta.path "ignore"] [Meta.path "int32"] [] (some 1) rfl,
   ignore_conflict_amended.2.2.2 demoClassifiers
      [Meta.path "ignore"] (some 1) rfl⟩

/-- C2: for every annotation group consumed by Field::new that is not
the Ignore case, kind classification is attempted in the fixed priority
order Scalar, Message, Map, Oneof, Group; the first classifier that
recognizes the group determines the descriptor's variant irrespective
of every later classifier, and if none of the five classifiers
recognizes the group, classification fails with "no type attribute". -/
theorem classify_priority_order :
    (∀ (c : Classifiers) (attrs : List Meta) (t : Option Nat)
        (f : ScalarField),
      c.scalar attrs t = .ok (some f) →
      classifyField c attrs t = .ok (Field.scalar f)) ∧
    (∀ (c : Classifiers) (attrs : List Meta) (t : Option Nat)
        (f : MessageField),
      c.scalar attrs t = .ok none →
      c.message attrs t = .ok (some f) →
      classifyField c attrs t = .ok (Field.message f)) ∧
    (∀ (c : Classifiers) (attrs : List Meta) (t : Option Nat)
        (f : MapField),
      c.scalar attrs t = .ok none →
      c.message attrs t = .ok none →
      c.map attrs t = .ok (some f) →
      classifyField c attrs t = .ok (Field.map f)) ∧
    (∀ (c : Classifiers) (attrs : List Meta) (t : Option Nat)
        (f : OneofField),
      c.scalar attrs t = .ok none →
      c.message attrs t = .ok none →
      c.map attrs t = .ok none →
      c.oneof attrs = .ok (some f) →
      classifyField c attrs t = .ok (Field.oneof f)) ∧
    (∀ (c : Classifiers) (attrs : List Meta) (t : Option Nat)
        (f : GroupField),
      c.scalar attrs t = .ok none →
      c.message attrs t = .ok none →
      c.map attrs t = .ok none →
      c.oneof attrs = .ok none →
      c.group attrs t = .ok (some f) →
      classifyField c attrs t = .ok (Field.group f)) ∧
    (∀ (c : Classifiers) (attrs : List Meta) (t : Option Nat),
      c.scalar attrs t = .ok none →
      c.message attrs t = .ok none →
      c.map attrs t = .ok none →
      c.oneof attrs = .ok none →
      c.group attrs t = .ok none →
      classifyField c attrs t = .error "no type attribute") ∧
    (∀ (c : Classifiers) (attrs : List Meta)
        (rest : List (Except String (List Meta))) (t : Option Nat),
      attrs.any (fun a => word_attr "ignore" a) = false →
      Field.new c (.ok attrs :: rest) t
        = (classifyField c attrs t) >>= (fun f =>
            (f :: ·) <$> fieldNewLoop c rest (nextInferredTag f t) false)) :=
  ⟨classifyField_scalar, classifyField_message, classifyField_map,
   classifyField_oneof, classifyField_group, classifyField_none,
   fun c attrs rest t h => fieldNewLoop_classify c attrs rest t h⟩

/-- Witness for C2: the five priority cases, the no-match error and
the dispatch link evaluated with the spec-modelled classifier bundle
on singleton marker groups. -/
theorem classify_priority_order_witness :
    classifyField demoClassifiers [Meta.path "int32"] (some 3)
      = .ok (Field.scalar ⟨3⟩) ∧
    classifyField demoClassifiers [Meta.path "message"] (some 3)
      = .ok (Field.message ⟨3⟩) ∧
    classifyField demoClassifiers [Meta.path "map"] (some 3)
      = .ok (Field.map ⟨3⟩) ∧
    classifyField demoClassifiers [Meta.path "oneof"] (some 3)
      = .ok (Field.oneof ⟨[1]⟩) ∧
    classifyField demoClassifiers [Meta.path "group"] (some 3)
      = .ok (Field.group ⟨3⟩) ∧
    classifyField demoClassifiers [Meta.path "boxed"] (some 3)
      = .error "no type attribute" ∧
    Field.new demoClassifiers [.ok [Meta.path "int32"]] (some 3)
      = (classifyField demoClassifiers [Meta.path "int32"] (some 3)) >>=
          (fun f => (f :: ·) <$>
            fieldNewLoop demoClassifiers [] (nextInferredTag f (some 3)) false) :=
  ⟨classify_priority_order.1 demoClassifiers [Meta.path "int32"] (some 3) ⟨3⟩ rfl,
   classify_priority_order.2.1 demoClassifiers [Meta.path "message"] (some 3) ⟨3⟩ rfl rfl,
   classify_priority_order.2.2.1 demoClassifiers [Meta.path "map"] (some 3) ⟨3⟩ rfl rfl rfl,
   classify_priority_order.2.2.2.1 demoClassifiers [Meta.path "oneof"] (some 3) ⟨[1]⟩
     rfl rfl rfl rfl,
   classify_priority_order.2.2.2.2.1 demoClassifiers [Meta.path "group"] (some 3) ⟨3⟩
     rfl rfl rfl rfl rfl,
   classify_priority_order.2.2.2.2.2.1 demoClassifiers [Meta.path "boxed"] (some 3)
     rfl rfl rfl rfl rfl,
   classify_priority_order.2.2.2.2.2.2 demoClassifiers [Meta.path "int32"] [] (some 3) rfl⟩

/-- C3: after each successfully classified non-Ignore descriptor the
inferred-tag cursor is set to one greater than the maximum tag the
descriptor claims via tags() — a singleton for Scalar, Message, Map and
Group and the declared list for Oneof — and the advanced cursor is the
value passed to the next group's classification; an Ignore descriptor
claims no tags and never changes the cursor; in particular, with
starting cursor 5 and a first group classified as Scalar claiming tag
5, the second group's classification receives inferred tag 6. -/
theorem inferred_tag_advance :
    (∀ (s : ScalarField) (t : Option Nat),
      Field.tags (Field.scalar s) = [s.tag]
        ∧ nextInferredTag (Field.scalar s) t = some (s.tag + 1)) ∧
    (∀ (m : MessageField) (t : Option Nat),
      Field.tags (Field.message m) = [m.tag]
        ∧ nextInferredTag (Field.message m) t = some (m.tag + 1)) ∧
    (∀ (m : MapField) (t : Option Nat),
      Field.tags (Field.map m) = [m.tag]
        ∧ nextInferredTag (Field.map m) t = some (m.tag + 1)) ∧
    (∀ (g : GroupField) (t : Option Nat),
      Field.tags (Field.group g) = [g.tag]
        ∧ nextInferredTag (Field.group g) t = some (g.tag + 1)) ∧
    (∀ o : OneofField, Field.tags (Field.oneof o) = o.tags) ∧
    (∀ (o : OneofField) (t : Option Nat) (x : Nat),
      o.tags.max? = some x →
      nextInferredTag (Field.oneof o) t = some (x + 1)) ∧
    (∀ t : Option Nat,
      Field.tags Field.ignore = [] ∧ nextInferredTag Field.ignore t = t) ∧
    (∀ (c : Classifiers) (g : List Meta)
        (rest : List (Except String (List Meta))) (t : Option Nat)
        (f : Field),
      g.any (fun a => word_attr "ignore" a) = false →
      classifyField c g t = .ok f →
      Field.new c (.ok g :: rest) t
        = (f :: ·) <$> fieldNewLoop c rest (nextInferredTag f t) false) ∧
    (∀ (c : Classifiers) (g1 g2 : List Meta),
      g1.any (fun a => word_attr "ignore" a) = false →
      g2.any (fun a => word_attr "ignore" a) = false →
      c.scalar g1 (some 5) = .ok (some ⟨5⟩) →
      Field.new c [.ok g1, .ok g2] (some 5)
        = (classifyField c g2 (some 6)) >>= (fun f2 =>
            .ok [Field.scalar ⟨5⟩, f2])) := by
  refine ⟨fun s t => ⟨rfl, rfl⟩, fun m t => ⟨rfl, rfl⟩,
    fun m t => ⟨rfl, rfl⟩, fun g t => ⟨rfl, rfl⟩, fun o => rfl,
    ?_, fun t => ⟨rfl, rfl⟩, ?_, ?_⟩
  · intro o t x h
    simp [nextInferredTag, Field.tags, h]
  · intro c g rest t f hg hc
    show fieldNewLoop c (.ok g :: rest) t false = _
    rw [fieldNewLoop_classify c g rest t hg, hc, exceptBind_ok]
  · intro c g1 g2 h1 h2 hs
    have hc1 := classifyField_scalar c g1 (some 5) ⟨5⟩ hs
    show fieldNewLoop c [.ok g1, .ok g2] (some 5) false = _
    rw [fieldNewLoop_classify c g1 _ (some 5) h1, hc1, exceptBind_ok]
    have hn : nextInferredTag (Field.scalar ⟨5⟩) (some 5) = some 6 := rfl
    rw [hn, fieldNewLoop_classify c g2 [] (some 6) h2]
    cases classifyField c g2 (some 6) <;> rfl

/-- Witness for C3: a Oneof descriptor claiming tags 3, 9, 4 advances
the cursor to 10, and with the spec-modelled bundle a first Scalar
group claiming tag 5 hands cursor 6 to the second group. -/
theorem inferred_tag_advance_witness :
    nextInferredTag (Field.oneof ⟨[3, 9, 4]⟩) (some 1) = some 10 ∧
    Field.new demoClassifiers
        [.ok [Meta.path "int32"], .ok [Meta.path "message"]] (some 5)
      = (classifyField demoClassifiers [Meta.path "message"] (some 6)) >>=
          (fun f2 => .ok [Field.scalar ⟨5⟩, f2]) :=
  ⟨inferred_tag_advance.2.2.2.2.2.1 ⟨[3, 9, 4]⟩ (some 1) 9 rfl,
   inferred_tag_advance.2.2.2.2.2.2.2.2 demoClassifiers
     [Meta.path "int32"] [Meta.path "message"] rfl rfl rfl⟩

/-- C4: Field::new_oneof classifies its attribute group against only
the four kinds Scalar, Message, Map, Group, in that order; a group
carrying only the Message marker succeeds as a Message descriptor,
while a group that none of the four kinds recognizes — including a
group carrying only the "ignore" marker — fails with the error "no
type attribute for oneof field". -/
theorem new_oneof_restricted :
    (∀ (c : Classifiers) (attrs : List Meta) (f : ScalarField),
      c.scalarOneof attrs = .ok (some f) →
      Field.new_oneof c attrs = .ok (some (Field.scalar f))) ∧
    (∀ (c : Classifiers) (attrs : List Meta) (f : MessageField),
      c.scalarOneof attrs = .ok none →
      c.messageOneof attrs = .ok (some f) →
      Field.new_oneof c attrs = .ok (some (Field.message f))) ∧
    (∀ (c : Classifiers) (attrs : List Meta) (f : MapField),
      c.scalarOneof attrs = .ok none →
      c.messageOneof attrs = .ok none →
      c.mapOneof attrs = .ok (some f) →
      Field.new_oneof c attrs = .ok (some (Field.map f))) ∧
    (∀ (c : Classifiers) (attrs : List Meta) (f : GroupField),
      c.scalarOneof attrs = .ok none →
      c.messageOneof attrs = .ok none →
      c.mapOneof attrs = .ok none →
      c.groupOneof attrs = .ok (some f) →
      Field.new_oneof c attrs = .ok (some (Field.group f))) ∧
    (∀ (c : Classifiers) (attrs : List Meta),
      c.scalarOneof attrs = .ok none →
      c.messageOneof attrs = .ok none →
      c.mapOneof attrs = .ok none →
      c.groupOneof attrs = .ok none →
      Field.new_oneof c attrs = .error "no type attribute for oneof field") ∧
    (Field.new_oneof demoClassifiers [Meta.path "message"]
        = .ok (some (Field.message ⟨0⟩))) ∧
    (Field.new_oneof demoClassifiers [Meta.path "ignore"]
        = .error "no type attribute for oneof field") :=
  ⟨new_oneof_scalar, new_oneof_message, new_oneof_map, new_oneof_group,
   new_oneof_none, rfl, rfl⟩

/-- Witness for C4: the restricted chain evaluated with the
spec-modelled bundle — a scalar marker matches first, and a nested
"oneof" marker group is rejected since Oneof is not among the four
kinds tried. -/
theorem new_oneof_restricted_witness :
    Field.new_oneof demoClassifiers [Meta.path "int32"]
      = .ok (some (Field.scalar ⟨0⟩)) ∧
    Field.new_oneof demoClassifiers [Meta.path "map"]
      = .ok (some (Field.map ⟨0⟩)) ∧
    Field.new_oneof demoClassifiers [Meta.path "group"]
      = .ok (some (Field.group ⟨0⟩)) ∧
    Field.new_oneof demoClassifiers [Meta.path "oneof"]
      = .error "no type attribute for oneof field" :=
  ⟨new_oneof_restricted.1 demoClassifiers [Meta.path "int32"] ⟨0⟩ rfl,
   new_oneof_restricted.2.2.1 demoClassifiers [Meta.path "map"] ⟨0⟩ rfl rfl rfl,
   new_oneof_restricted.2.2.2.1 demoClassifiers [Meta.path "group"] ⟨0⟩
     rfl rfl rfl rfl,
   new_oneof_restricted.2.2.2.2.1 demoClassifiers [Meta.path "oneof"]
     rfl rfl rfl rfl⟩

/-- C10: a group that contains the bare "ignore" marker together with
any other entries in the same group still produces the Ignore
descriptor for that group without any error, for every choice of
classifiers — so the other entries of the same group are never
classified, validated or reported. -/
theorem ignore_group_discards :
    (∀ (c : Classifiers) (g : List Meta) (t : Option Nat),
      g.any (fun a => word_attr "ignore" a) = true →
      Field.new c [.ok g] t = .ok [Field.ignore]) ∧
    (∀ (c : Classifiers) (others : List Meta) (t : Option Nat),
      Field.new c [.ok (Meta.path "ignore" :: others)] t
        = .ok [Field.ignore]) ∧
    (∀ (c : Classifiers) (t : Option Nat),
      Field.new c [.ok [Meta.path "ignore", Meta.path "int32",
          Meta.nameValue "tag" (Lit.int 3)]] t = .ok [Field.ignore]) := by
  have h1 : ∀ (c : Classifiers) (g : List Meta) (t : Option Nat),
      g.any (fun a => word_attr "ignore" a) = true →
      Field.new c [.ok g] t = .ok [Field.ignore] := by
    intro c g t h
    show fieldNewLoop c [.ok g] t false = _
    rw [fieldNewLoop_ignore c g [] t h]
    rfl
  refine ⟨h1, ?_, ?_⟩
  · intro c others t
    exact h1 c _ t (by simp [word_attr])
  · intro c t
    exact h1 c _ t rfl

/-- Witness for C10: a group carrying "boxed" before "ignore" is still
collapsed to the Ignore descriptor under the spec-modelled bundle. -/
theorem ignore_group_discards_witness :
    Field.new demoClassifiers
        [.ok [Meta.path "boxed", Meta.path "ignore"]] (some 2)
      = .ok [Field.ignore] :=
  ignore_group_discards.1 demoClassifiers
    [Meta.path "boxed", Meta.path "ignore"] (some 2) rfl

end Prost
